import Mathlib

/-!
Verification of the remote-module loading and playback-scheduling engine of
the bad-apple-module-federation repository.

The development shallowly embeds the engine's source files:

* `apps/host/src/App.tsx` — playback scheduler (`renderFrame`, `tick`),
  playback clock (`getDesiredFrameIndex`), controls (`onScrub`, `stepFrame`);
* `apps/host/src/mfRuntime.ts` — remote registry (`ensureRemote`) and module
  resolver (`loadRemoteModule`, `parseSharedPkgName`);
* the manual container loader (`loadRemoteEntry`, `getContainer`,
  `unloadRemoteContainer`).

Numbers that JavaScript treats as IEEE doubles are embedded as exact
rationals (`ℚ`); a JavaScript `NaN` that the code can actually produce is
embedded explicitly as `Option.none` where it matters.  JavaScript's `%` on
numbers truncates toward zero, which is `Int.tmod` on integers.
-/

namespace BadApple

/-! ## Playback clock (`getDesiredFrameIndex` in `App.tsx`)

The wall-clock branch of `getDesiredFrameIndex`:

```js
const elapsedSec = Math.max(0, (now - perfStartRef.current) / 1000);
const frameTime = perfStartFrameRef.current / fps + elapsedSec;
return Math.floor(frameTime * fps) % frameCount;
```

`now` and `perfStart` are millisecond timestamps; `perfStartFrame` is the
frame index recorded when `play()` was pressed.
-/

/-- Wall-clock branch of `getDesiredFrameIndex` (App.tsx lines 296-300). -/
def wallClockFrameIndex (now perfStart : ℚ) (perfStartFrame : ℕ) (fps : ℚ)
    (frameCount : ℕ) : ℤ :=
  let elapsedSec : ℚ := max 0 ((now - perfStart) / 1000)
  let frameTime : ℚ := (perfStartFrame : ℚ) / fps + elapsedSec
  Int.tmod ⌊frameTime * fps⌋ (frameCount : ℤ)

/-- Spec formula, first form (spec §4.4): the wall-clock index is claimed to
be `floor(originFrameIndex / fps + (now - originTimestamp) / 1000 * fps) mod
frameCount`.  Written from the spec's words, for comparison with the code. -/
def specWallClockFormulaA (now originTimestamp : ℚ) (originFrameIndex : ℕ)
    (fps : ℚ) (frameCount : ℕ) : ℤ :=
  Int.tmod ⌊(originFrameIndex : ℚ) / fps + (now - originTimestamp) / 1000 * fps⌋
    (frameCount : ℤ)

/-- Spec formula, second form (spec §4.4): `floor((originFrameIndex/fps) * fps
+ elapsedSeconds*fps) mod frameCount`, with `elapsedSeconds` the clamped
elapsed time `max 0 ((now - originTimestamp)/1000)`.  Written from the spec's
words, for comparison with the code. -/
def specWallClockFormulaB (now originTimestamp : ℚ) (originFrameIndex : ℕ)
    (fps : ℚ) (frameCount : ℕ) : ℤ :=
  let elapsedSeconds : ℚ := max 0 ((now - originTimestamp) / 1000)
  Int.tmod ⌊(originFrameIndex : ℚ) / fps * fps + elapsedSeconds * fps⌋
    (frameCount : ℤ)

/-- State of the `<audio>` element as far as `getDesiredFrameIndex` reads it:
`paused` and `currentTime` (in seconds); `finiteTime` records the
`isFinite(a.currentTime)` guard. -/
structure AudioClock where
  paused : Bool
  currentTime : ℚ
  finiteTime : Bool
deriving DecidableEq, Repr

/-- `getDesiredFrameIndex` (App.tsx lines 287-301): audio-driven when an
audio element exists, an `audioUrl` is configured, the audio is unpaused and
its time is finite; otherwise the wall-clock fallback. -/
def getDesiredFrameIndex (audio : Option AudioClock) (audioUrl : Bool)
    (offset : ℚ) (now perfStart : ℚ) (perfStartFrame : ℕ) (fps : ℚ)
    (frameCount : ℕ) : ℤ :=
  match audio with
  | some a =>
    if audioUrl && !a.paused && a.finiteTime then
      Int.tmod ⌊(max 0 (a.currentTime + offset)) * fps⌋ (frameCount : ℤ)
    else
      wallClockFrameIndex now perfStart perfStartFrame fps frameCount
  | none => wallClockFrameIndex now perfStart perfStartFrame fps frameCount

/-- A truncating remainder of a nonnegative floor lands in `[0, F)`. -/
lemma tmod_floor_range (x : ℚ) (F : ℕ) (hx : 0 ≤ x) (hF : 0 < F) :
    0 ≤ Int.tmod ⌊x⌋ (F : ℤ) ∧ Int.tmod ⌊x⌋ (F : ℤ) < (F : ℤ) := by
  have h0 : 0 ≤ ⌊x⌋ := Int.floor_nonneg.mpr hx
  have hFz : (0 : ℤ) < (F : ℤ) := by exact_mod_cast hF
  rw [Int.tmod_eq_emod h0 (le_of_lt hFz)]
  exact ⟨Int.emod_nonneg _ (by omega), Int.emod_lt_of_pos _ hFz⟩

/-- Advancing the wall clock by `frameCount / fps` seconds (i.e. by
`frameCount / fps * 1000` milliseconds) leaves the computed frame index
unchanged, provided the evaluation time is not before the playback origin. -/
lemma wallClockFrameIndex_period (now perfStart : ℚ) (perfStartFrame : ℕ)
    (fps : ℚ) (frameCount : ℕ) (hF : 0 < frameCount) (hfps : 0 < fps)
    (hnow : perfStart ≤ now) :
    wallClockFrameIndex (now + (frameCount : ℚ) / fps * 1000) perfStart
        perfStartFrame fps frameCount
      = wallClockFrameIndex now perfStart perfStartFrame fps frameCount := by
  have e0 : 0 ≤ (now - perfStart) / 1000 :=
    div_nonneg (sub_nonneg.mpr hnow) (by norm_num)
  have e1 : 0 ≤ (frameCount : ℚ) / fps :=
    div_nonneg (Nat.cast_nonneg frameCount) hfps.le
  have hsplit : (now + (frameCount : ℚ) / fps * 1000 - perfStart) / 1000
      = (now - perfStart) / 1000 + (frameCount : ℚ) / fps := by
    field_simp
    ring
  simp only [wallClockFrameIndex, hsplit, max_eq_right e0,
    max_eq_right (add_nonneg e0 e1)]
  have hmul : ((perfStartFrame : ℚ) / fps
        + ((now - perfStart) / 1000 + (frameCount : ℚ) / fps)) * fps
      = ((perfStartFrame : ℚ) / fps + (now - perfStart) / 1000) * fps
        + (frameCount : ℚ) := by
    have hfz : fps ≠ 0 := ne_of_gt hfps
    field_simp
    ring
  rw [hmul, Int.floor_add_nat]
  have hx : 0 ≤ ((perfStartFrame : ℚ) / fps + (now - perfStart) / 1000) * fps :=
    mul_nonneg (add_nonneg (div_nonneg (Nat.cast_nonneg _) hfps.le) e0) hfps.le
  have h0 : 0 ≤ ⌊((perfStartFrame : ℚ) / fps + (now - perfStart) / 1000) * fps⌋ :=
    Int.floor_nonneg.mpr hx
  have hFz : (0 : ℤ) ≤ (frameCount : ℤ) := by positivity
  rw [Int.tmod_eq_emod (by omega) hFz, Int.tmod_eq_emod h0 hFz]
  have := Int.add_mul_emod_self_left
    (⌊((perfStartFrame : ℚ) / fps + (now - perfStart) / 1000) * fps⌋)
    ((frameCount : ℕ) : ℤ) 1
  simp only [mul_one] at this
  exact this

/-- C4 (counterexample): at `now = originTimestamp = 0`,
`originFrameIndex = 24`, `fps = 24`, `frameCount = 5258`, the code computes
frame index 24 while the spec's first wall-clock formula gives 1, and the
spec's two formulas disagree with each other at the same input. -/
theorem wallClock_specFormulaA_counterexample :
    (wallClockFrameIndex 0 0 24 24 5258 = 24 ∧
      specWallClockFormulaA 0 0 24 24 5258 = 1 ∧
      specWallClockFormulaB 0 0 24 24 5258 = 24) ∧
    wallClockFrameIndex 0 0 24 24 5258
      ≠ specWallClockFormulaA 0 0 24 24 5258 ∧
    specWallClockFormulaA 0 0 24 24 5258
      ≠ specWallClockFormulaB 0 0 24 24 5258 := by
  have h1 : wallClockFrameIndex 0 0 24 24 5258 = 24 := by
    show Int.tmod ⌊(((24 : ℕ) : ℚ) / 24 + max 0 (((0 : ℚ) - 0) / 1000)) * 24⌋
        ((5258 : ℕ) : ℤ) = 24
    norm_num
    decide
  have h2 : specWallClockFormulaA 0 0 24 24 5258 = 1 := by
    show Int.tmod ⌊((24 : ℕ) : ℚ) / 24 + ((0 : ℚ) - 0) / 1000 * 24⌋
        ((5258 : ℕ) : ℤ) = 1
    norm_num
    decide
  have h3 : specWallClockFormulaB 0 0 24 24 5258 = 24 := by
    show Int.tmod ⌊((24 : ℕ) : ℚ) / 24 * 24 + max 0 (((0 : ℚ) - 0) / 1000) * 24⌋
        ((5258 : ℕ) : ℤ) = 24
    norm_num
    decide
  refine ⟨⟨h1, h2, h3⟩, ?_, ?_⟩
  · rw [h1, h2]
    decide
  · rw [h2, h3]
    decide

/-- C4 (amended): the wall-clock index computed by the code agrees, at every
input, with the spec's second formula
`floor((originFrameIndex/fps) * fps + elapsedSeconds*fps) mod frameCount`
(with `elapsedSeconds` the clamped elapsed time); the spec's first formula is
the one that disagrees. -/
theorem wallClockFrameIndex_eq_specFormulaB (now perfStart : ℚ)
    (perfStartFrame : ℕ) (fps : ℚ) (frameCount : ℕ) :
    wallClockFrameIndex now perfStart perfStartFrame fps frameCount
      = specWallClockFormulaB now perfStart perfStartFrame fps frameCount := by
  simp only [wallClockFrameIndex, specWallClockFormulaB, add_mul]

/-- C5: for every positive frame count and fps, `getDesiredFrameIndex` lands
in `[0, frameCount)` in both clock modes, and (evaluation times not preceding
the playback origin, as guaranteed by the scheduler) advancing the wall clock
by `frameCount / fps` seconds yields the same index — wraparound looping,
never an error. -/
theorem getDesiredFrameIndex_range_and_period (audio : Option AudioClock)
    (audioUrl : Bool) (offset now perfStart : ℚ) (perfStartFrame : ℕ)
    (fps : ℚ) (frameCount : ℕ) (hF : 0 < frameCount) (hfps : 0 < fps)
    (hnow : perfStart ≤ now) :
    (0 ≤ getDesiredFrameIndex audio audioUrl offset now perfStart
          perfStartFrame fps frameCount ∧
      getDesiredFrameIndex audio audioUrl offset now perfStart
          perfStartFrame fps frameCount < (frameCount : ℤ)) ∧
    getDesiredFrameIndex audio audioUrl offset
        (now + (frameCount : ℚ) / fps * 1000) perfStart perfStartFrame fps
        frameCount
      = getDesiredFrameIndex audio audioUrl offset now perfStart
          perfStartFrame fps frameCount := by
  have hwall : 0 ≤ ((perfStartFrame : ℚ) / fps
      + max 0 ((now - perfStart) / 1000)) * fps :=
    mul_nonneg (add_nonneg (div_nonneg (Nat.cast_nonneg _) hfps.le)
      (le_max_left 0 _)) hfps.le
  constructor
  · cases audio with
    | none => exact tmod_floor_range _ _ hwall hF
    | some a =>
      by_cases hcond : (audioUrl && !a.paused && a.finiteTime) = true
      · simp only [getDesiredFrameIndex, hcond, if_true]
        exact tmod_floor_range _ _
          (mul_nonneg (le_max_left 0 _) hfps.le) hF
      · simp only [getDesiredFrameIndex, hcond, if_false]
        exact tmod_floor_range _ _ hwall hF
  · cases audio with
    | none =>
      exact wallClockFrameIndex_period now perfStart perfStartFrame fps
        frameCount hF hfps hnow
    | some a =>
      by_cases hcond : (audioUrl && !a.paused && a.finiteTime) = true
      · simp only [getDesiredFrameIndex, hcond, if_true]
      · simp only [getDesiredFrameIndex, hcond, if_false]
        exact wallClockFrameIndex_period now perfStart perfStartFrame fps
          frameCount hF hfps hnow

/-- C5 (witness): concrete instance — wall-clock mode, origin frame 0 at
timestamp 0, `fps = 24`, `frameCount = 5258`, evaluated at `now = 1000`. -/
theorem getDesiredFrameIndex_range_and_period_witness :
    (0 ≤ getDesiredFrameIndex none false 0 1000 0 0 24 5258 ∧
      getDesiredFrameIndex none false 0 1000 0 0 24 5258 < (5258 : ℤ)) ∧
    getDesiredFrameIndex none false 0 (1000 + (5258 : ℚ) / 24 * 1000) 0 0 24
        5258
      = getDesiredFrameIndex none false 0 1000 0 0 24 5258 :=
  getDesiredFrameIndex_range_and_period none false 0 1000 0 0 24 5258
    (by norm_num) (by norm_num) (by norm_num)

/-! ## Remote registry (`ensureRemote` in `mfRuntime.ts`)

```js
const registeredEntryByName = new Map<string, string>();
export const ensureRemote = (remote) => {
  const prev = registeredEntryByName.get(remote.name);
  if (prev === remote.entry) return;
  registerRemotes([remote], { force: true });
  registeredEntryByName.set(remote.name, remote.entry);
};
```

The `Map` is embedded as an association list, with `lookupEntry` for `get`
and `setEntry` for `set`.
-/

/-- A remote descriptor: logical name plus manifest entry URL. -/
structure RemoteSpec where
  name : String
  entry : String
deriving DecidableEq, Repr

/-- `Map.get`: first binding for the key, if any. -/
def lookupEntry : List (String × String) → String → Option String
  | [], _ => none
  | (k, v) :: rest, n => if k = n then some v else lookupEntry rest n

/-- `Map.set`: replace the existing binding or append a new one. -/
def setEntry : List (String × String) → String → String → List (String × String)
  | [], n, e => [(n, e)]
  | (k, v) :: rest, n, e =>
    if k = n then (n, e) :: rest else (k, v) :: setEntry rest n e

/-- Lookup in the runtime's container/manifest cache. -/
def lookupCache : List (String × Nat) → String → Option Nat
  | [], _ => none
  | (k, v) :: rest, n => if k = n then some v else lookupCache rest n

/-- Registry-side state: the module-level `registeredEntryByName` map, the
log of `registerRemotes(..., { force: true })` calls issued, and the
federation runtime's cached container per remote name. -/
structure MFRuntimeState where
  registeredEntryByName : List (String × String)
  forceRegistered : List RemoteSpec
  containerCache : List (String × Nat)
deriving DecidableEq, Repr

/-- Modelled from the spec: the external federation-runtime call
`registerRemotes([remote], { force: true })`.  The runtime itself is not part
of this repository; per the spec (§3, §4.1) and the source comment in
`mfRuntime.ts`, a forced registration replaces the previous registration and
clears the runtime's cached container/manifest for that name. -/
def registerRemotesForce (r : RemoteSpec) (s : MFRuntimeState) : MFRuntimeState :=
  { s with
    forceRegistered := s.forceRegistered ++ [r],
    containerCache := s.containerCache.filter (fun p => p.1 != r.name) }

/-- `ensureRemote` (mfRuntime.ts lines 14-22). -/
def ensureRemote (r : RemoteSpec) (s : MFRuntimeState) : MFRuntimeState :=
  if lookupEntry s.registeredEntryByName r.name = some r.entry then s
  else
    let s' := registerRemotesForce r s
    { s' with
      registeredEntryByName := setEntry s'.registeredEntryByName r.name r.entry }

lemma lookupEntry_setEntry_self (l : List (String × String)) (n e : String) :
    lookupEntry (setEntry l n e) n = some e := by
  induction l with
  | nil => simp [setEntry, lookupEntry]
  | cons kv rest ih =>
    obtain ⟨k, v⟩ := kv
    by_cases hk : k = n
    · simp [setEntry, lookupEntry, hk]
    · simp [setEntry, lookupEntry, hk, ih]

lemma lookupCache_filter_ne (l : List (String × Nat)) (n : String) :
    lookupCache (l.filter (fun p => p.1 != n)) n = none := by
  induction l with
  | nil => simp [lookupCache]
  | cons kv rest ih =>
    obtain ⟨k, v⟩ := kv
    by_cases hk : k = n
    · simp [List.filter, hk, ih]
    · have hb : (k != n) = true := bne_iff_ne.mpr hk
      simp [List.filter, hb, lookupCache, hk, ih]

/-- C6: `ensureRemote` is a no-op (no new registration, no bootstrap) when
the name is already registered with the identical entry URL; with a different
entry URL it issues a forced `registerRemotes` call, records the new entry,
and the runtime's cached container for that name is invalidated. -/
theorem ensureRemote_idempotent_or_force (s : MFRuntimeState) (r : RemoteSpec)
    (prev : String) :
    (lookupEntry s.registeredEntryByName r.name = some r.entry →
      ensureRemote r s = s) ∧
    (lookupEntry s.registeredEntryByName r.name = some prev → prev ≠ r.entry →
      (ensureRemote r s).forceRegistered = s.forceRegistered ++ [r] ∧
      lookupEntry (ensureRemote r s).registeredEntryByName r.name
        = some r.entry ∧
      lookupCache (ensureRemote r s).containerCache r.name = none) := by
  constructor
  · intro h
    simp [ensureRemote, h]
  · intro h hne
    have hdiff : lookupEntry s.registeredEntryByName r.name ≠ some r.entry := by
      rw [h]
      intro hc
      exact hne (Option.some_injective _ hc)
    refine ⟨?_, ?_, ?_⟩
    · simp [ensureRemote, hdiff, registerRemotesForce]
    · simp [ensureRemote, hdiff, registerRemotesForce,
        lookupEntry_setEntry_self]
    · simp [ensureRemote, hdiff, registerRemotesForce, lookupCache_filter_ne]

/-- C6 (witness): the registry holds `frame_0001 ↦ http://a/mf-manifest.json`
with a cached container; re-registering the identical entry is a no-op, and
registering a different entry forces replacement and drops the cached
container. -/
theorem ensureRemote_idempotent_or_force_witness :
    ensureRemote ⟨"frame_0001", "http://a/mf-manifest.json"⟩
        ⟨[("frame_0001", "http://a/mf-manifest.json")], [], [("frame_0001", 7)]⟩
      = ⟨[("frame_0001", "http://a/mf-manifest.json")], [], [("frame_0001", 7)]⟩ ∧
    ((ensureRemote ⟨"frame_0001", "http://b/mf-manifest.json"⟩
        ⟨[("frame_0001", "http://a/mf-manifest.json")], [], [("frame_0001", 7)]⟩).forceRegistered
      = [] ++ [⟨"frame_0001", "http://b/mf-manifest.json"⟩] ∧
     lookupEntry (ensureRemote ⟨"frame_0001", "http://b/mf-manifest.json"⟩
        ⟨[("frame_0001", "http://a/mf-manifest.json")], [], [("frame_0001", 7)]⟩).registeredEntryByName
        "frame_0001" = some "http://b/mf-manifest.json" ∧
     lookupCache (ensureRemote ⟨"frame_0001", "http://b/mf-manifest.json"⟩
        ⟨[("frame_0001", "http://a/mf-manifest.json")], [], [("frame_0001", 7)]⟩).containerCache
        "frame_0001" = none) := by
  constructor
  · exact (ensureRemote_idempotent_or_force
      ⟨[("frame_0001", "http://a/mf-manifest.json")], [], [("frame_0001", 7)]⟩
      ⟨"frame_0001", "http://a/mf-manifest.json"⟩ "http://a/mf-manifest.json").1
      (by decide)
  · exact (ensureRemote_idempotent_or_force
      ⟨[("frame_0001", "http://a/mf-manifest.json")], [], [("frame_0001", 7)]⟩
      ⟨"frame_0001", "http://b/mf-manifest.json"⟩ "http://a/mf-manifest.json").2
      (by decide) (by decide)

/-! ## Module resolver (`loadRemoteModule` in `mfRuntime.ts`)

```js
export const loadRemoteModule = async (id) => {
  try {
    const mod = await loadRemote(id);
    if (mod == null) throw new Error(`Remote module returned null: ${id}`);
    return mod;
  } catch (err) {
    const msg = err instanceof Error ? err.message : String(err);
    if (msg.includes('RUNTIME-006') || msg.includes('Invalid loadShareSync')) {
      const pkg = parseSharedPkgName(msg);
      if (pkg) { await loadShare(pkg); retry once; }
    }
    if (msg.includes('RUNTIME-008') || msg.includes(syntax-error text)) {
      re-register current entry with force; retry once;
    }
    throw err;
  }
};
```

The two `loadRemote` attempts are embedded as explicit outcome parameters
(`first`, `second`): the function performs at most two `loadRemote` calls by
construction, and the returned `ResolveTrace` counts them.
-/

/-- JavaScript's `String.prototype.includes`: `pat` occurs as a contiguous
substring of `s`. -/
def strIncludesL : List Char → List Char → Bool
  | [], pat => pat.isEmpty
  | c :: rest, pat => pat.isPrefixOf (c :: rest) || strIncludesL rest pat

/-- `msg.includes(pat)`. -/
def strIncludes (s pat : String) : Bool := strIncludesL s.data pat.data

/-- The apostrophe character, written by code point to keep the source
ASCII-clean. -/
def quoteChar : Char := Char.ofNat 39

/-- The stale-manifest syntax-error text tested by `loadRemoteModule`
(mfRuntime.ts line 48): expected expression, got an angle bracket in quotes. -/
def syntaxErrMsg : String :=
  "expected expression, got " ++ String.singleton quoteChar ++ "<"
    ++ String.singleton quoteChar

/-- An ASCII approximation of the regex class `\s` used by
`parseSharedPkgName`. -/
def isJsSpace (c : Char) : Bool :=
  c = ' ' || c = '\t' || c = '\n' || c = '\r'

/-- The literal `sharedPkgName"` that the regex of `parseSharedPkgName`
anchors on. -/
def pkgKey : List Char := "sharedPkgName".data ++ ['\"']

/-- Attempt the regex `sharedPkgName\"\s*:\s*\"([^\"]+)\"` at the head of
`cs`. -/
def matchPkgAt (cs : List Char) : Option String :=
  if pkgKey.isPrefixOf cs then
    match (cs.drop pkgKey.length).dropWhile isJsSpace with
    | ':' :: r2 =>
      match r2.dropWhile isJsSpace with
      | '\"' :: r3 =>
        let nm := r3.takeWhile (fun c => c ≠ '\"')
        if nm.isEmpty then none
        else if (r3.drop nm.length).head? = some '\"' then
          some (String.mk nm)
        else none
      | _ => none
    | _ => none
  else none

/-- Leftmost match of the regex, scanning every start position. -/
def findPkg : List Char → Option String
  | [] => none
  | c :: rest =>
    match matchPkgAt (c :: rest) with
    | some s => some s
    | none => findPkg rest

/-- `parseSharedPkgName` (mfRuntime.ts lines 24-27): extract the shared
package name from a RUNTIME-006 error message. -/
def parseSharedPkgName (message : String) : Option String :=
  findPkg message.data

/-- `id.split('/')[0] || ''`: the prefix of `id` before the first slash. -/
def firstSplitComponent (id : String) : String :=
  String.mk (id.data.takeWhile (fun c => c ≠ '/'))

/-- Outcome of one `loadRemote(id)` call: a module value (opaque), a
`null`/absent result, or a rejection with an error message. -/
inductive LoadOutcome
  | ok (m : Nat)
  | nullRes
  | failure (msg : String)
deriving DecidableEq, Repr

/-- The message of the error thrown when a resolve yields `null`. -/
def nullErrMsg (id : String) : String := "Remote module returned null: " ++ id

/-- What one `loadRemote` attempt contributes as the function's result: a
module on success, the explicit null error on a `null` result, the rejection
message otherwise. -/
def attemptResult (id : String) : LoadOutcome → Except String Nat
  | .ok m => .ok m
  | .nullRes => .error (nullErrMsg id)
  | .failure msg => .error msg

/-- Side effects observed during one `loadRemoteModule` call. -/
structure ResolveTrace where
  loadRemoteCalls : Nat
  loadShareCalls : List String
  registerForceCalls : List (String × String)
deriving DecidableEq, Repr

/-- The stale-manifest block of the `catch` (mfRuntime.ts lines 48-57):
`const remoteName = id.split('/')[0] || ''` is `firstSplitComponent id`, and
the `if (remoteName && entry)` truthiness guard is the two emptiness
checks. -/
def resolveStaleRetry (id : String) (reg : List (String × String))
    (msg : String) (second : LoadOutcome) : Except String Nat × ResolveTrace :=
  if strIncludes msg "RUNTIME-008" || strIncludes msg syntaxErrMsg then
    match (if firstSplitComponent id = "" then none
           else lookupEntry reg (firstSplitComponent id)) with
    | some entry =>
      if entry = "" then (.error msg, ⟨1, [], []⟩)
      else (attemptResult id second, ⟨2, [], [(firstSplitComponent id, entry)]⟩)
    | none => (.error msg, ⟨1, [], []⟩)
  else (.error msg, ⟨1, [], []⟩)

/-- The `catch` block of `loadRemoteModule` (mfRuntime.ts lines 34-59),
entered with the thrown message `msg`; `second` is the outcome the runtime
would give a second `loadRemote(id)` call.  Note the RUNTIME-006 block does
not `else`-guard the RUNTIME-008 block: when the shared-package name fails to
parse, control falls through to the stale-manifest check. -/
def resolveCatch (id : String) (reg : List (String × String)) (msg : String)
    (second : LoadOutcome) : Except String Nat × ResolveTrace :=
  match (if strIncludes msg "RUNTIME-006"
            || strIncludes msg "Invalid loadShareSync"
         then parseSharedPkgName msg
         else none) with
  | some pkg => (attemptResult id second, ⟨2, [pkg], []⟩)
  | none => resolveStaleRetry id reg msg second

/-- `loadRemoteModule` (mfRuntime.ts lines 29-60), with the outcomes of the
(at most two) `loadRemote` calls passed explicitly. -/
def loadRemoteModule (id : String) (reg : List (String × String))
    (first second : LoadOutcome) : Except String Nat × ResolveTrace :=
  match first with
  | .ok m => (.ok m, ⟨1, [], []⟩)
  | .nullRes => resolveCatch id reg (nullErrMsg id) second
  | .failure msg => resolveCatch id reg msg second

lemma resolveStaleRetry_null_second (id : String)
    (reg : List (String × String)) (msg : String) :
    (resolveStaleRetry id reg msg .nullRes).1 = .error (nullErrMsg id) ∨
    (resolveStaleRetry id reg msg .nullRes).1 = .error msg := by
  unfold resolveStaleRetry
  split
  · split
    · split
      · right; rfl
      · left; rfl
    · right; rfl
  · right; rfl

lemma resolveCatch_null_second (id : String) (reg : List (String × String))
    (msg : String) :
    (resolveCatch id reg msg .nullRes).1 = .error (nullErrMsg id) ∨
    (resolveCatch id reg msg .nullRes).1 = .error msg := by
  unfold resolveCatch
  split
  · left; rfl
  · exact resolveStaleRetry_null_second id reg msg

/-- C7: when a resolve fails with a stale-manifest message (`RUNTIME-008` or
the syntax-error text) that does not trigger the shared-dependency branch,
and the remote has a registered (nonempty) entry, `loadRemoteModule` forces a
re-registration of that entry and retries exactly once — two `loadRemote`
calls in total, the second outcome final, so a failing retry propagates with
no further retry; and a message matching none of the recognized patterns
propagates immediately with a single `loadRemote` call and no
registration. -/
theorem loadRemoteModule_stale_manifest_retries_once (id msg entry : String)
    (reg : List (String × String)) (second : LoadOutcome)
    (h006 : strIncludes msg "RUNTIME-006" = false)
    (h006b : strIncludes msg "Invalid loadShareSync" = false)
    (h008 : (strIncludes msg "RUNTIME-008" || strIncludes msg syntaxErrMsg)
      = true)
    (hname : firstSplitComponent id ≠ "")
    (hentry : lookupEntry reg (firstSplitComponent id) = some entry)
    (hentryNe : entry ≠ "") :
    loadRemoteModule id reg (.failure msg) second
      = (attemptResult id second, ⟨2, [], [(firstSplitComponent id, entry)]⟩) ∧
    (∀ msg2, second = .failure msg2 →
      (loadRemoteModule id reg (.failure msg) second).1 = .error msg2) ∧
    (∀ other, strIncludes other "RUNTIME-006" = false →
      strIncludes other "Invalid loadShareSync" = false →
      strIncludes other "RUNTIME-008" = false →
      strIncludes other syntaxErrMsg = false →
      loadRemoteModule id reg (.failure other) second
        = (.error other, ⟨1, [], []⟩)) := by
  have h1 : loadRemoteModule id reg (.failure msg) second
      = (attemptResult id second, ⟨2, [], [(firstSplitComponent id, entry)]⟩) := by
    simp [loadRemoteModule, resolveCatch, resolveStaleRetry, h006, h006b,
      h008, hname, hentry, hentryNe]
  refine ⟨h1, ?_, ?_⟩
  · intro msg2 hm2
    subst hm2
    rw [h1]
    rfl
  · intro other o1 o2 o3 o4
    simp [loadRemoteModule, resolveCatch, resolveStaleRetry, o1, o2, o3, o4]

/-- C7 (witness): a RUNTIME-008 failure for `frame_0001/Frame` with entry
registered; the retried attempt fails again and that failure is final. -/
theorem loadRemoteModule_stale_manifest_retries_once_witness :
    loadRemoteModule "frame_0001/Frame"
        [("frame_0001", "http://cdn/frame-0001/mf-manifest.json?v=1")]
        (.failure "[ Federation Runtime ]: Error RUNTIME-008 script load")
        (.failure "still broken")
      = (attemptResult "frame_0001/Frame" (.failure "still broken"),
          ⟨2, [],
            [("frame_0001", "http://cdn/frame-0001/mf-manifest.json?v=1")]⟩) ∧
    (∀ msg2, LoadOutcome.failure "still broken" = .failure msg2 →
      (loadRemoteModule "frame_0001/Frame"
          [("frame_0001", "http://cdn/frame-0001/mf-manifest.json?v=1")]
          (.failure "[ Federation Runtime ]: Error RUNTIME-008 script load")
          (.failure "still broken")).1 = .error msg2) ∧
    (∀ other, strIncludes other "RUNTIME-006" = false →
      strIncludes other "Invalid loadShareSync" = false →
      strIncludes other "RUNTIME-008" = false →
      strIncludes other syntaxErrMsg = false →
      loadRemoteModule "frame_0001/Frame"
          [("frame_0001", "http://cdn/frame-0001/mf-manifest.json?v=1")]
          (.failure other) (.failure "still broken")
        = (.error other, ⟨1, [], []⟩)) :=
  loadRemoteModule_stale_manifest_retries_once "frame_0001/Frame"
    "[ Federation Runtime ]: Error RUNTIME-008 script load"
    "http://cdn/frame-0001/mf-manifest.json?v=1"
    [("frame_0001", "http://cdn/frame-0001/mf-manifest.json?v=1")]
    (.failure "still broken") (by decide) (by decide) (by decide) (by decide)
    (by decide) (by decide)

/-- C8: a `null`/absent resolve result never surfaces as a module.  If every
`loadRemote` attempt returns `null`, the call ends in the explicit
"Remote module returned null" failure; and whatever the first failure was,
with a `null` retried attempt the call ends in an explicit error — either the
null error of the retry or the original message — never a success. -/
theorem loadRemoteModule_null_never_silent (id : String)
    (reg : List (String × String)) :
    (loadRemoteModule id reg .nullRes .nullRes).1 = .error (nullErrMsg id) ∧
    ∀ msg, (loadRemoteModule id reg (.failure msg) .nullRes).1
        = .error (nullErrMsg id) ∨
      (loadRemoteModule id reg (.failure msg) .nullRes).1 = .error msg := by
  constructor
  · have h := resolveCatch_null_second id reg (nullErrMsg id)
    rcases h with h | h <;> exact h
  · intro msg
    exact resolveCatch_null_second id reg msg

/-! ## Container loader (`loadRemoteEntry` in the manual loader)

```js
const containers = new Map<string, LoadEntry>();
const loadRemoteEntry = (url, scope) => {
  const cached = containers.get(scope);
  if (cached) return cached.promise;
  ... create promise, create script with src = url, append to head ...
  containers.set(scope, { url, script, promise });
  return promise;
};
```

Promises are embedded by identity (`promiseId`, allocated from a counter);
script injection is embedded as appending the script URL to
`injectedScripts`.
-/

/-- The loader's cached record per scope: the entry URL it was first loaded
from and the identity of the in-flight promise. -/
structure LoadEntryRec where
  url : String
  promiseId : Nat
deriving DecidableEq, Repr

/-- `containers.get(scope)`. -/
def lookupContainer : List (String × LoadEntryRec) → String → Option LoadEntryRec
  | [], _ => none
  | (k, v) :: rest, n => if k = n then some v else lookupContainer rest n

/-- The loader's module-level state: the `containers` map keyed by scope, the
ordered list of script URLs appended to `document.head`, and the promise-id
allocator. -/
structure LoaderState where
  containers : List (String × LoadEntryRec)
  injectedScripts : List String
  nextPromiseId : Nat
deriving DecidableEq, Repr

/-- `loadRemoteEntry(url, scope)`: returns the (identity of the) promise
handed back to the caller together with the updated loader state. -/
def loadRemoteEntry (url scope : String) (s : LoaderState) :
    Nat × LoaderState :=
  match lookupContainer s.containers scope with
  | some cached => (cached.promiseId, s)
  | none =>
    (s.nextPromiseId,
      { containers := s.containers ++ [(scope, ⟨url, s.nextPromiseId⟩)],
        injectedScripts := s.injectedScripts ++ [url],
        nextPromiseId := s.nextPromiseId + 1 })

/-- The loader's initial (page-load) state. -/
def loaderInit : LoaderState := ⟨[], [], 0⟩

/-- C9 (counterexample): two loads with the same entry location but different
scope names each inject a script and get distinct promises — the cache is
keyed by scope, not by entry location, so "exactly once per entry location"
fails. -/
theorem loadRemoteEntry_per_entry_location_counterexample :
    (loadRemoteEntry "http://cdn/remoteEntry.js" "frame_0002"
        (loadRemoteEntry "http://cdn/remoteEntry.js" "frame_0001"
          loaderInit).2).2.injectedScripts
      = ["http://cdn/remoteEntry.js", "http://cdn/remoteEntry.js"] ∧
    (loadRemoteEntry "http://cdn/remoteEntry.js" "frame_0002"
        (loadRemoteEntry "http://cdn/remoteEntry.js" "frame_0001"
          loaderInit).2).1
      ≠ (loadRemoteEntry "http://cdn/remoteEntry.js" "frame_0001"
          loaderInit).1 := by
  constructor
  · rfl
  · decide

lemma lookupContainer_append_self (l : List (String × LoadEntryRec))
    (scope : String) (e : LoadEntryRec) (h : lookupContainer l scope = none) :
    lookupContainer (l ++ [(scope, e)]) scope = some e := by
  induction l with
  | nil => simp [lookupContainer]
  | cons kv rest ih =>
    obtain ⟨k, v⟩ := kv
    by_cases hk : k = scope
    · simp [lookupContainer, hk] at h
    · simp [lookupContainer, hk] at h ⊢
      exact ih h

/-- C9 (amended): the bootstrap is injected and executed exactly once per
scope name (the cache key): a second load for the same scope — whatever entry
URL it passes, including a concurrent one issued while the first is still in
flight — returns the very same in-flight promise, changes no state, and
injects no second script. -/
theorem loadRemoteEntry_once_per_scope (url1 url2 scope : String)
    (s : LoaderState) (h : lookupContainer s.containers scope = none) :
    loadRemoteEntry url2 scope (loadRemoteEntry url1 scope s).2
      = ((loadRemoteEntry url1 scope s).1, (loadRemoteEntry url1 scope s).2) ∧
    (loadRemoteEntry url2 scope (loadRemoteEntry url1 scope s).2).2.injectedScripts
      = s.injectedScripts ++ [url1] := by
  have hfound : lookupContainer
      (s.containers ++ [(scope, ⟨url1, s.nextPromiseId⟩)]) scope
      = some ⟨url1, s.nextPromiseId⟩ :=
    lookupContainer_append_self s.containers scope _ h
  constructor
  · simp only [loadRemoteEntry, h, hfound]
  · simp only [loadRemoteEntry, h, hfound]

/-- C9 (witness): concrete same-scope double load from the initial state. -/
theorem loadRemoteEntry_once_per_scope_witness :
    loadRemoteEntry "http://cdn/b.js" "frame_0001"
        (loadRemoteEntry "http://cdn/a.js" "frame_0001" loaderInit).2
      = ((loadRemoteEntry "http://cdn/a.js" "frame_0001" loaderInit).1,
          (loadRemoteEntry "http://cdn/a.js" "frame_0001" loaderInit).2) ∧
    (loadRemoteEntry "http://cdn/b.js" "frame_0001"
        (loadRemoteEntry "http://cdn/a.js" "frame_0001" loaderInit).2).2.injectedScripts
      = loaderInit.injectedScripts ++ ["http://cdn/a.js"] :=
  loadRemoteEntry_once_per_scope "http://cdn/a.js" "http://cdn/b.js"
    "frame_0001" loaderInit (by decide)

/-! ## Scrub control (`onScrub` in `App.tsx`)

```js
const value = Number(event.target.value || 1) - 1;
const nextIndex = Math.max(0, Math.min(frameCount - 1, value));
```

`event.target.value` is a string; `"" || 1` falls back to `1`, a non-numeric
string coerces to `NaN`, and `Math.min`/`Math.max` propagate `NaN`.  A JS
number that may be `NaN` is embedded as `Option ℚ` with `none` for `NaN`.
-/

/-- The `Number(event.target.value || 1)` coercion of the scrub input string:
empty string (falsy) falls back to `1`, a numeric string gives its value, a
non-numeric string gives `NaN`. -/
inductive ScrubValue
  | emptyStr
  | numeric (q : ℚ)
  | nonNumeric
deriving DecidableEq

/-- `Number(event.target.value || 1)` as an optional rational (`none` =
`NaN`). -/
def jsNumberOfScrub : ScrubValue → Option ℚ
  | .emptyStr => some 1
  | .numeric q => some q
  | .nonNumeric => none

/-- `onScrub`'s `nextIndex` (App.tsx lines 274-285): subtract 1, then
`Math.max(0, Math.min(frameCount - 1, value))`, with `NaN` propagating
through both. -/
def onScrubTarget (frameCount : ℕ) (v : ScrubValue) : Option ℚ :=
  match (jsNumberOfScrub v).map (fun q => q - 1) with
  | none => none
  | some q => some (max 0 (min ((frameCount : ℚ) - 1) q))

/-- C10 (counterexample): at `frameCount = 120`, a non-numeric scrub input
(coerced to `NaN`) is not clamped into `[0, 119]` — `nextIndex` is `NaN`, and
`renderFrame` is still dispatched with it. -/
theorem onScrubTarget_nan_counterexample :
    ¬ ∃ q : ℚ, onScrubTarget 120 ScrubValue.nonNumeric = some q ∧
      0 ≤ q ∧ q ≤ 119 := by
  rintro ⟨q, hq, -, -⟩
  simp [onScrubTarget, jsNumberOfScrub] at hq

/-- C10 (amended): for every scrub input whose `Number` coercion is not `NaN`
— every numeric string, and the empty string which falls back to `1` — the
target index is clamped into `[0, frameCount - 1]` before the load is
dispatched, provided `frameCount ≥ 1`. -/
theorem onScrubTarget_clamps (frameCount : ℕ) (v : ScrubValue)
    (hF : 1 ≤ frameCount) (hv : v ≠ ScrubValue.nonNumeric) :
    ∃ q : ℚ, onScrubTarget frameCount v = some q ∧
      0 ≤ q ∧ q ≤ (frameCount : ℚ) - 1 := by
  have hF1 : (0 : ℚ) ≤ (frameCount : ℚ) - 1 := by
    have : (1 : ℚ) ≤ (frameCount : ℚ) := by exact_mod_cast hF
    linarith
  cases v with
  | nonNumeric => exact absurd rfl hv
  | emptyStr =>
    refine ⟨max 0 (min ((frameCount : ℚ) - 1) (1 - 1)), rfl, le_max_left _ _, ?_⟩
    exact max_le hF1 (min_le_left _ _)
  | numeric q =>
    refine ⟨max 0 (min ((frameCount : ℚ) - 1) (q - 1)), rfl, le_max_left _ _, ?_⟩
    exact max_le hF1 (min_le_left _ _)

/-- C10 (witness): scrub input `"500"` at `frameCount = 120` clamps to
`119`. -/
theorem onScrubTarget_clamps_witness :
    ∃ q : ℚ, onScrubTarget 120 (ScrubValue.numeric 500) = some q ∧
      0 ≤ q ∧ q ≤ (120 : ℚ) - 1 :=
  onScrubTarget_clamps 120 (ScrubValue.numeric 500) (by norm_num)
    (by intro h; cases h)

/-! ## Playback scheduler (`renderFrame` / `tick` in `App.tsx`)

```js
const renderFrame = async (index) => {
  if (!stageRef.current || loadingRef.current) return;
  loadingRef.current = true; setLoading(true); setError('');
  try {
    ensureRemote(...); const mod = await loadRemoteModule(`${scope}/Frame`);
    if (currentModuleRef.current?.unmount)
      currentModuleRef.current.unmount(stageRef.current);
    mod.mount(stageRef.current);
    currentModuleRef.current = mod;
  } catch (err) { setError(...); }
  finally { loadingRef.current = false; setLoading(false); }
};

const tick = (now) => { ...
  const desired = getDesiredFrameIndex(now);
  if (desired !== frameIndexRef.current) {
    frameIndexRef.current = desired; setFrameIndex(desired);
    if (!loadingRef.current) renderFrame(desired);
  } ... };
```

The asynchronous body of `renderFrame` is split into the synchronous
dispatch prefix (`renderDispatch`: the guard, setting `loading`, clearing the
error, invoking the resolver) and the completion of the awaited resolution
(`settleLoad`, fed the resolution outcome).  The single-threaded event loop
is a list of events: direct `renderFrame` calls (initial load, `stepFrame`,
`onScrub`), qualifying `tick` callbacks (those past the frame-duration
throttle, with their computed desired index), and load completions.
-/

/-- A frame module as the engine observes it: an identity (`mid`) and
whether its capability set includes `unmount`. -/
structure ModuleV where
  mid : Nat
  hasUnmount : Bool
deriving DecidableEq, Repr

/-- A mount-target operation performed on the stage DOM node. -/
inductive DomEv
  | mountEv (mid : Nat)
  | unmountEv (mid : Nat)
deriving DecidableEq, Repr

/-- The scheduler-visible engine state: `stageRef`-non-null, `loadingRef`,
`frameIndexRef`, `currentModuleRef`, the `error` state, the number of
resolver (`loadRemoteModule`) invocations, and the ordered log of
mount/unmount capability calls. -/
structure EngineState where
  stagePresent : Bool
  loading : Bool
  frameIndex : Int
  currentModule : Option ModuleV
  errorMsg : String
  resolverCalls : Nat
  domLog : List DomEv
deriving DecidableEq, Repr

/-- The synchronous prefix of `renderFrame(index)`: suppressed without side
effects when the stage is absent or a load is in flight; otherwise sets
`loading`, clears the error and invokes the resolver. -/
def renderDispatch (_idx : Int) (s : EngineState) : EngineState :=
  if !s.stagePresent || s.loading then s
  else
    { s with loading := true, errorMsg := "",
             resolverCalls := s.resolverCalls + 1 }

/-- The `currentModuleRef.current?.unmount` call before a mount: unmount the
previously recorded module exactly when it exists and defines `unmount`. -/
def unmountEvents : Option ModuleV → List DomEv
  | some c => if c.hasUnmount then [DomEv.unmountEv c.mid] else []
  | none => []

/-- Completion of the awaited resolution inside `renderFrame`: on success,
unmount the previous module when it defines `unmount`, then mount the new
one and record it; on failure record the message and keep the previous
module; `finally` clears `loading` in both outcomes.  (A settle event only
arises for an in-flight load; the guard makes the step total.) -/
def settleLoad (res : Except String ModuleV) (s : EngineState) : EngineState :=
  if !s.loading then s
  else
    match res with
    | .ok m =>
      { s with loading := false,
               currentModule := some m,
               domLog := s.domLog ++ unmountEvents s.currentModule
                 ++ [DomEv.mountEv m.mid] }
    | .error e => { s with loading := false, errorMsg := e }

/-- A qualifying `tick` (past the frame-duration throttle) with computed
desired index: update `frameIndexRef` on change and dispatch only when no
load is in flight. -/
def tickStep (desired : Int) (s : EngineState) : EngineState :=
  if desired ≠ s.frameIndex then
    if !({ s with frameIndex := desired } : EngineState).loading then
      renderDispatch desired { s with frameIndex := desired }
    else { s with frameIndex := desired }
  else s

/-- One event of the single-threaded scheduler loop. -/
inductive SchedEv
  | render (idx : Int)
  | tick (desired : Int)
  | settle (res : Except String ModuleV)

/-- Interpret one event. -/
def schedStep : SchedEv → EngineState → EngineState
  | .render idx, s => renderDispatch idx s
  | .tick d, s => tickStep d s
  | .settle r, s => settleLoad r s

/-- Run a list of events left to right. -/
def schedRun (evs : List SchedEv) (s : EngineState) : EngineState :=
  evs.foldl (fun st e => schedStep e st) s

/-- Is this event the completion of an in-flight load? -/
def isSettle : SchedEv → Bool
  | .settle _ => true
  | _ => false

/-- Engine state at page load: stage mounted, nothing loading, frame 0. -/
def initEngineState : EngineState := ⟨true, false, 0, none, "", 0, []⟩

/-- Scan a mount/unmount log, tracking which module ids are currently
mounted; fails (`none`) exactly when some module is mounted while already
mounted — i.e. mounted twice without an intervening unmount. -/
def scanLog : List DomEv → List Nat → Option (List Nat)
  | [], opened => some opened
  | DomEv.mountEv m :: rest, opened =>
    if opened.contains m then none else scanLog rest (m :: opened)
  | DomEv.unmountEv m :: rest, opened => scanLog rest (opened.erase m)

/-- The mounted-module set corresponding to `currentModuleRef`. -/
def openOf : Option ModuleV → List Nat
  | none => []
  | some m => [m.mid]

/-- Every load completion in the event list delivers a module that defines
`unmount`. -/
def settledModulesOk : List SchedEv → Bool
  | [] => true
  | SchedEv.settle (Except.ok m) :: rest => m.hasUnmount && settledModulesOk rest
  | _ :: rest => settledModulesOk rest

lemma renderDispatch_of_loading (idx : Int) (s : EngineState)
    (h : s.loading = true) : renderDispatch idx s = s := by
  simp [renderDispatch, h]

/-- Any non-settle event keeps an in-flight load in flight and invokes the
resolver zero further times. -/
lemma schedStep_nonsettle_inflight (e : SchedEv) (s : EngineState)
    (he : isSettle e = false) (hl : s.loading = true) :
    (schedStep e s).loading = true ∧
    (schedStep e s).resolverCalls = s.resolverCalls := by
  cases e with
  | render idx =>
    simp [schedStep, renderDispatch_of_loading idx s hl, hl]
  | tick d =>
    simp only [schedStep, tickStep]
    by_cases hd : d ≠ s.frameIndex
    · simp [hd, hl]
    · simp [hd, hl]
  | settle r => simp [isSettle] at he

lemma schedRun_nonsettle_inflight (evs : List SchedEv) (s : EngineState)
    (hevs : (evs.all fun e => !isSettle e) = true) (hl : s.loading = true) :
    (schedRun evs s).loading = true ∧
    (schedRun evs s).resolverCalls = s.resolverCalls := by
  induction evs generalizing s with
  | nil => exact ⟨hl, rfl⟩
  | cons e rest ih =>
    rw [List.all_cons, Bool.and_eq_true] at hevs
    have he : isSettle e = false := by
      rcases hevs with ⟨h1, -⟩
      cases hs : isSettle e
      · rfl
      · rw [hs] at h1; cases h1
    have hstep := schedStep_nonsettle_inflight e s he hl
    have hrest := ih (schedStep e s) hevs.2 hstep.1
    exact ⟨hrest.1, hrest.2.trans hstep.2⟩

/-- C1: dispatching a load when none is in flight invokes the resolver
exactly once and raises `loading`; from then on, across any sequence of
scheduler ticks and further dispatch attempts containing no settle of the
in-flight load, the resolver count stays at that single invocation and
`loading` stays true — and any dispatch attempt made while `loading` is true
returns the state unchanged (suppressed, not queued). -/
theorem single_load_in_flight (s₀ : EngineState) (idx : Int)
    (evs : List SchedEv) (hstage : s₀.stagePresent = true)
    (hload : s₀.loading = false)
    (hevs : (evs.all fun e => !isSettle e) = true) :
    (renderDispatch idx s₀).resolverCalls = s₀.resolverCalls + 1 ∧
    (renderDispatch idx s₀).loading = true ∧
    (schedRun evs (renderDispatch idx s₀)).resolverCalls
      = s₀.resolverCalls + 1 ∧
    (schedRun evs (renderDispatch idx s₀)).loading = true ∧
    (∀ (j : Int) (s : EngineState), s.loading = true →
      renderDispatch j s = s) := by
  have hd1 : (renderDispatch idx s₀).resolverCalls = s₀.resolverCalls + 1 := by
    simp [renderDispatch, hstage, hload]
  have hd2 : (renderDispatch idx s₀).loading = true := by
    simp [renderDispatch, hstage, hload]
  have hrun := schedRun_nonsettle_inflight evs (renderDispatch idx s₀) hevs hd2
  exact ⟨hd1, hd2, hrun.2.trans hd1, hrun.1,
    fun j s h => renderDispatch_of_loading j s h⟩

/-- C1 (witness): from the initial state, dispatch frame 0, then let two
throttle-qualifying ticks with changed targets and a direct scrub dispatch
arrive while the load is in flight. -/
theorem single_load_in_flight_witness :
    (renderDispatch 0 initEngineState).resolverCalls
      = initEngineState.resolverCalls + 1 ∧
    (renderDispatch 0 initEngineState).loading = true ∧
    (schedRun [SchedEv.tick 5, SchedEv.render 5, SchedEv.tick 7]
        (renderDispatch 0 initEngineState)).resolverCalls
      = initEngineState.resolverCalls + 1 ∧
    (schedRun [SchedEv.tick 5, SchedEv.render 5, SchedEv.tick 7]
        (renderDispatch 0 initEngineState)).loading = true ∧
    (∀ (j : Int) (s : EngineState), s.loading = true →
      renderDispatch j s = s) :=
  single_load_in_flight initEngineState 0
    [SchedEv.tick 5, SchedEv.render 5, SchedEv.tick 7] rfl rfl rfl

/-- C3: when the in-flight load settles with an error, the previously
mounted module is untouched (no unmount — the stage is not blanked, the DOM
log is unchanged), the error message is recorded, and `loading` is cleared;
and `loading` is cleared by every settle outcome, success or failure. -/
theorem failed_load_records_error_keeps_mounted (s : EngineState) (e : String)
    (h : s.loading = true) :
    (settleLoad (.error e) s).currentModule = s.currentModule ∧
    (settleLoad (.error e) s).domLog = s.domLog ∧
    (settleLoad (.error e) s).errorMsg = e ∧
    (settleLoad (.error e) s).loading = false ∧
    (∀ res : Except String ModuleV, (settleLoad res s).loading = false) := by
  refine ⟨?_, ?_, ?_, ?_, ?_⟩
  · simp [settleLoad, h]
  · simp [settleLoad, h]
  · simp [settleLoad, h]
  · simp [settleLoad, h]
  · intro res
    cases res with
    | ok m => simp [settleLoad, h]
    | error e2 => simp [settleLoad, h]

/-- C3 (witness): a load dispatched for frame 1 on top of a mounted module
fails with a network error. -/
theorem failed_load_records_error_keeps_mounted_witness :
    (settleLoad (.error "Failed to load remote entry")
        (renderDispatch 1
          (settleLoad (.ok ⟨0, true⟩)
            (renderDispatch 0 initEngineState)))).currentModule
      = (renderDispatch 1
          (settleLoad (.ok ⟨0, true⟩)
            (renderDispatch 0 initEngineState))).currentModule ∧
    (settleLoad (.error "Failed to load remote entry")
        (renderDispatch 1
          (settleLoad (.ok ⟨0, true⟩)
            (renderDispatch 0 initEngineState)))).domLog
      = (renderDispatch 1
          (settleLoad (.ok ⟨0, true⟩)
            (renderDispatch 0 initEngineState))).domLog ∧
    (settleLoad (.error "Failed to load remote entry")
        (renderDispatch 1
          (settleLoad (.ok ⟨0, true⟩)
            (renderDispatch 0 initEngineState)))).errorMsg
      = "Failed to load remote entry" ∧
    (settleLoad (.error "Failed to load remote entry")
        (renderDispatch 1
          (settleLoad (.ok ⟨0, true⟩)
            (renderDispatch 0 initEngineState)))).loading = false ∧
    (∀ res : Except String ModuleV,
      (settleLoad res
        (renderDispatch 1
          (settleLoad (.ok ⟨0, true⟩)
            (renderDispatch 0 initEngineState)))).loading = false) :=
  failed_load_records_error_keeps_mounted
    (renderDispatch 1
      (settleLoad (.ok ⟨0, true⟩) (renderDispatch 0 initEngineState)))
    "Failed to load remote entry" rfl

/-- C2 (counterexample): with frame modules that define no `unmount` (the
capability is optional), the run load 0 / load 1 / load 0 produces the
capability-call log `mount 0, mount 1, mount 0`: module 0 is mounted twice
with no intervening unmount, refuting the claim's universal second
conjunct. -/
theorem mount_twice_without_unmount_counterexample :
    (schedRun
        [SchedEv.render 0, SchedEv.settle (.ok ⟨0, false⟩),
         SchedEv.render 1, SchedEv.settle (.ok ⟨1, false⟩),
         SchedEv.render 0, SchedEv.settle (.ok ⟨0, false⟩)]
        initEngineState).domLog
      = [DomEv.mountEv 0, DomEv.mountEv 1, DomEv.mountEv 0] ∧
    (scanLog (schedRun
        [SchedEv.render 0, SchedEv.settle (.ok ⟨0, false⟩),
         SchedEv.render 1, SchedEv.settle (.ok ⟨1, false⟩),
         SchedEv.render 0, SchedEv.settle (.ok ⟨0, false⟩)]
        initEngineState).domLog []).isSome = false := by
  constructor
  · rfl
  · rfl

lemma scanLog_append (l1 l2 : List DomEv) (o : List Nat) :
    scanLog (l1 ++ l2) o = (scanLog l1 o).bind (fun o2 => scanLog l2 o2) := by
  induction l1 generalizing o with
  | nil => rfl
  | cons ev rest ih =>
    cases ev with
    | mountEv m =>
      by_cases hm : m ∈ o
      · simp [scanLog, hm]
      · simp [scanLog, hm, ih]
    | unmountEv m => simp [scanLog, ih]

/-- The no-double-mount invariant: the log scans successfully and its
currently-open set is exactly the recorded current module; and every
recorded module defines `unmount`. -/
def engineInv (s : EngineState) : Prop :=
  scanLog s.domLog [] = some (openOf s.currentModule) ∧
  ∀ c, s.currentModule = some c → c.hasUnmount = true

lemma renderDispatch_log_current (idx : Int) (s : EngineState) :
    (renderDispatch idx s).domLog = s.domLog ∧
    (renderDispatch idx s).currentModule = s.currentModule := by
  unfold renderDispatch
  split <;> simp

lemma settleLoad_ok_inv (m : ModuleV) (s : EngineState) (hinv : engineInv s)
    (hm : m.hasUnmount = true) : engineInv (settleLoad (.ok m) s) := by
  cases hload : s.loading with
  | false =>
    have : settleLoad (.ok m) s = s := by simp [settleLoad, hload]
    rw [this]
    exact hinv
  | true =>
    obtain ⟨hscan, hcur⟩ := hinv
    have hsettle : settleLoad (.ok m) s
        = { s with
            loading := false,
            currentModule := some m,
            domLog := (s.domLog ++ unmountEvents s.currentModule
              ++ [DomEv.mountEv m.mid]) } := by
      simp [settleLoad, hload]
    constructor
    · rw [hsettle]
      show scanLog (s.domLog ++ unmountEvents s.currentModule
        ++ [DomEv.mountEv m.mid]) [] = some (openOf (some m))
      rw [scanLog_append, scanLog_append, hscan]
      cases hc : s.currentModule with
      | none => simp [unmountEvents, scanLog, openOf]
      | some c =>
        have hcu : c.hasUnmount = true := hcur c hc
        simp [unmountEvents, scanLog, openOf, hcu]
    · intro c hcm
      rw [hsettle] at hcm
      simp only at hcm
      cases hcm
      exact hm

lemma schedStep_inv (e : SchedEv) (s : EngineState) (hinv : engineInv s)
    (hok : ∀ m, e = SchedEv.settle (Except.ok m) → m.hasUnmount = true) :
    engineInv (schedStep e s) := by
  cases e with
  | render idx =>
    have h := renderDispatch_log_current idx s
    show engineInv (renderDispatch idx s)
    unfold engineInv
    rw [h.1, h.2]
    exact hinv
  | tick d =>
    show engineInv (tickStep d s)
    unfold tickStep
    split
    · split
      · have h := renderDispatch_log_current d
          { s with frameIndex := d }
        unfold engineInv
        rw [h.1, h.2]
        exact hinv
      · exact hinv
    · exact hinv
  | settle r =>
    cases r with
    | ok m => exact settleLoad_ok_inv m s hinv (hok m rfl)
    | error e2 =>
      show engineInv (settleLoad (.error e2) s)
      unfold engineInv settleLoad
      split
      · exact hinv
      · exact hinv

lemma settledModulesOk_cons (e : SchedEv) (rest : List SchedEv)
    (h : settledModulesOk (e :: rest) = true) :
    (∀ m, e = SchedEv.settle (Except.ok m) → m.hasUnmount = true) ∧
    settledModulesOk rest = true := by
  cases e with
  | render idx => exact ⟨(fun m hm => nomatch hm), h⟩
  | tick d => exact ⟨(fun m hm => nomatch hm), h⟩
  | settle r =>
    cases r with
    | ok m =>
      rw [settledModulesOk, Bool.and_eq_true] at h
      exact ⟨(fun m' hm' => by cases hm'; exact h.1), h.2⟩
    | error e2 => exact ⟨(fun m hm => nomatch hm), h⟩

lemma schedRun_inv (evs : List SchedEv) (s : EngineState) (hinv : engineInv s)
    (hall : settledModulesOk evs = true) : engineInv (schedRun evs s) := by
  induction evs generalizing s with
  | nil => exact hinv
  | cons e rest ih =>
    obtain ⟨hok, hrest⟩ := settledModulesOk_cons e rest hall
    exact ih (schedStep e s) (schedStep_inv e s hinv hok) hrest

lemma engineInv_init : engineInv initEngineState :=
  ⟨rfl, fun c h => by cases h⟩

/-- C2 (amended): for consecutive successful loads the unmount of frame N's
module — when it defines one — is invoked strictly before the mount of frame
N+1's module (the log extends exactly by `unmount m1` then `mount m2`); and
provided every successfully loaded module defines `unmount`, no module is
ever mounted twice without an intervening unmount over any event sequence
from engine start.  (Without that proviso the second part fails, see the
counterexample.) -/
theorem mount_unmount_strictly_ordered (s : EngineState) (m1 m2 : ModuleV)
    (idx2 : Int) (evs : List SchedEv) (hload : s.loading = true)
    (hstage : s.stagePresent = true) (hu : m1.hasUnmount = true)
    (hall : settledModulesOk evs = true) :
    (settleLoad (.ok m2) (renderDispatch idx2 (settleLoad (.ok m1) s))).domLog
      = (settleLoad (.ok m1) s).domLog
        ++ [DomEv.unmountEv m1.mid, DomEv.mountEv m2.mid] ∧
    (scanLog (schedRun evs initEngineState).domLog []).isSome = true := by
  constructor
  · have hs1l : (settleLoad (.ok m1) s).loading = false := by
      simp [settleLoad, hload]
    have hs1s : (settleLoad (.ok m1) s).stagePresent = true := by
      simp [settleLoad, hload, hstage]
    have hs1c : (settleLoad (.ok m1) s).currentModule = some m1 := by
      simp [settleLoad, hload]
    have hs2 : renderDispatch idx2 (settleLoad (.ok m1) s)
        = { settleLoad (.ok m1) s with
            loading := true, errorMsg := "",
            resolverCalls := (settleLoad (.ok m1) s).resolverCalls + 1 } := by
      simp [renderDispatch, hs1l, hs1s]
    rw [hs2]
    simp [settleLoad, unmountEvents, hs1c, hu, hload]
  · have hinv := schedRun_inv evs initEngineState engineInv_init hall
    rw [hinv.1]
    rfl

/-- C2 (witness): a first load mounts module 0 (which defines unmount), a
dispatch for frame 1 succeeds with module 1; later events settle only
unmount-capable modules. -/
theorem mount_unmount_strictly_ordered_witness :
    (settleLoad (.ok ⟨1, true⟩)
        (renderDispatch 1
          (settleLoad (.ok ⟨0, true⟩)
            (renderDispatch 0 initEngineState)))).domLog
      = (settleLoad (.ok ⟨0, true⟩)
          (renderDispatch 0 initEngineState)).domLog
        ++ [DomEv.unmountEv 0, DomEv.mountEv 1] ∧
    (scanLog (schedRun [SchedEv.render 0, SchedEv.settle (.ok ⟨2, true⟩)]
        initEngineState).domLog []).isSome = true :=
  mount_unmount_strictly_ordered (renderDispatch 0 initEngineState)
    ⟨0, true⟩ ⟨1, true⟩ 1 [SchedEv.render 0, SchedEv.settle (.ok ⟨2, true⟩)]
    rfl rfl rfl rfl

end BadApple
